import Mathlib

/-!
Verification development for the SimilarSiteExtension popup logic
(`popup.js`).  The JavaScript source is shallowly embedded: JSON values
become an inductive type, the `fetch` transport and the host builtin
`JSON.parse` become explicit parameters, DOM mutations become explicit
state passing on a record of the popup's elements, and observable
effects (network calls, `response.json()` calls, `JSON.parse` calls,
console logs, writes to the message element) are tracked in the result.
Host-defined exception texts (TypeError messages and the like) are
modelled as plain strings; their exact wording is not load-bearing.
-/

/-- A JSON-like JavaScript value, as produced by `response.json()` or
`JSON.parse`.  Numbers are modelled as integers (no claim depends on
fractional numbers). -/
inductive JVal where
  | jnull : JVal
  | jbool : Bool → JVal
  | jnum : Int → JVal
  | jstr : String → JVal
  | jarr : List JVal → JVal
  | jobj : List (String × JVal) → JVal

/-- JavaScript truthiness of a value. -/
def truthy : JVal → Bool
  | .jnull => false
  | .jbool b => b
  | .jnum n => n != 0
  | .jstr s => !s.isEmpty
  | .jarr _ => true
  | .jobj _ => true

/-- Truthiness of a possibly-`undefined` value (`none` = `undefined`). -/
def truthyOpt : Option JVal → Bool
  | none => false
  | some v => truthy v

/-- First binding of a key in a JSON object (objects decoded from JSON
are assumed to have no duplicate keys). -/
def lookupField (fs : List (String × JVal)) (k : String) : Option JVal :=
  (fs.find? (fun p => p.1 == k)).map Prod.snd

/-- JavaScript property access `v.k`.  Accessing a property of `null` or
`undefined` throws a TypeError (the `Except.error` case); on other
primitives it yields `undefined`.  Arrays and strings expose `length`. -/
def getProp : Option JVal → String → Except String (Option JVal)
  | none, k => .error ("TypeError: Cannot read properties of undefined (reading " ++ k ++ ")")
  | some .jnull, k => .error ("TypeError: Cannot read properties of null (reading " ++ k ++ ")")
  | some (.jobj fs), k => .ok (lookupField fs k)
  | some (.jarr xs), k => .ok (if k == "length" then some (.jnum xs.length) else none)
  | some (.jstr s), k => .ok (if k == "length" then some (.jnum s.length) else none)
  | some (.jnum _), _ => .ok none
  | some (.jbool _), _ => .ok none

/-- JavaScript indexed access `v[i]`.  On `null`/`undefined` it throws;
on an array it reads the element, on a string the one-character
substring, on an object the property named by the index. -/
def getIdx : Option JVal → Nat → Except String (Option JVal)
  | none, _ => .error "TypeError: Cannot read properties of undefined (reading an index)"
  | some .jnull, _ => .error "TypeError: Cannot read properties of null (reading an index)"
  | some (.jarr xs), i => .ok (xs.get? i)
  | some (.jstr s), i => .ok ((s.data.get? i).map (fun c => .jstr (String.mk [c])))
  | some (.jobj fs), i => .ok (lookupField fs (toString i))
  | some (.jnum _), _ => .ok none
  | some (.jbool _), _ => .ok none

/-- JavaScript `Number(v)` coercion; `none` models `NaN`. -/
def jsToNumber : JVal → Option Int
  | .jnull => some 0
  | .jbool b => some (if b then 1 else 0)
  | .jnum n => some n
  | .jstr s => if s.trim = "" then some 0 else s.trim.toInt?
  | .jarr [] => some 0
  | .jarr [.jbool _] => none
  | .jarr [v] => jsToNumber v
  | .jarr (_ :: _ :: _) => none
  | .jobj _ => none

/-- The JavaScript comparison `v > 0` (on a possibly-`undefined` value);
`NaN` compares false. -/
def jsGtZero (x : Option JVal) : Bool :=
  match x with
  | none => false
  | some v =>
    match jsToNumber v with
    | none => false
    | some n => decide (0 < n)

/-- The URL-entry filter of `fetchSimilarSites` (popup.js line 105):
`typeof url === 'string' && url.trim() !== '' && (url.startsWith('http://') || url.startsWith('https://'))`.
JavaScript `trim` is modelled on the character list. -/
def jsTrim (l : List Char) : List Char :=
  ((l.dropWhile Char.isWhitespace).reverse.dropWhile Char.isWhitespace).reverse

/-- Keeps a candidate entry when it is a string whose trim is non-empty
and which starts with `http://` or `https://` (the source's filter
callback); returns the kept string. -/
def validSiteEntry : JVal → Option String
  | .jstr s =>
    if !(jsTrim s.data).isEmpty
        && ("http://".data.isPrefixOf s.data || "https://".data.isPrefixOf s.data) then
      some s
    else none
  | _ => none

/-- `parsedJson.similarWebsites.filter(...)` of the source, producing the
returned list of URL strings. -/
def filterSimilarWebsites (xs : List JVal) : List String :=
  xs.filterMap validSiteEntry

/-- Modelled from the spec's wording only, for comparison with the
source's filter: keep entries that are non-empty strings beginning with
`http://` or `https://`. -/
def specSiteEntry : JVal → Option String
  | .jstr s =>
    if !s.data.isEmpty
        && ("http://".data.isPrefixOf s.data || "https://".data.isPrefixOf s.data) then
      some s
    else none
  | _ => none

/-- The spec-worded filtering of a decoded array. -/
def specFilterSites (xs : List JVal) : List String :=
  xs.filterMap specSiteEntry

/-- The envelope guard and text extraction of popup.js lines 93-98:
`result.candidates && result.candidates.length > 0 && result.candidates[0].content
&& result.candidates[0].content.parts && result.candidates[0].content.parts.length > 0
&& result.candidates[0].content.parts[0].text`, with JavaScript
short-circuiting and property-access TypeErrors.  `Except.ok none` is
the failed guard (the `else` branch at line 118); `Except.ok (some tv)`
is a passed guard with extracted text value `tv`. -/
def extractText (result : JVal) : Except String (Option JVal) :=
  match getProp (some result) "candidates" with
  | .error m => .error m
  | .ok cands =>
    if !truthyOpt cands then .ok none
    else
      match getProp cands "length" with
      | .error m => .error m
      | .ok clen =>
        if !jsGtZero clen then .ok none
        else
          match getIdx cands 0 with
          | .error m => .error m
          | .ok c0 =>
            match getProp c0 "content" with
            | .error m => .error m
            | .ok content =>
              if !truthyOpt content then .ok none
              else
                match getProp content "parts" with
                | .error m => .error m
                | .ok parts =>
                  if !truthyOpt parts then .ok none
                  else
                    match getProp parts "length" with
                    | .error m => .error m
                    | .ok plen =>
                      if !jsGtZero plen then .ok none
                      else
                        match getIdx parts 0 with
                        | .error m => .error m
                        | .ok p0 =>
                          match getProp p0 "text" with
                          | .error m => .error m
                          | .ok text =>
                            if !truthyOpt text then .ok none
                            else .ok text

/-- Console log events of `fetchSimilarSites` (payload strings kept only
where a claim inspects them). -/
inductive LogEntry where
  | apiRequestFailed : Nat → String → LogEntry
  | noValidCandidates : LogEntry
  | parseJsonFailed : LogEntry
  | unexpectedStructure : LogEntry
  | fetchError : String → LogEntry
deriving DecidableEq

/-- Outcome of the body of the `try` block of `fetchSimilarSites`:
either a returned list of sites or a thrown exception message. -/
inductive BodyOutcome where
  | ok : List String → BodyOutcome
  | thrown : String → BodyOutcome
deriving DecidableEq

/-- One run of the `try` block: its outcome plus the observable effects
(number of `response.json()` calls, number of `JSON.parse` calls on the
inner text, console logs in order). -/
structure TryRun where
  outcome : BodyOutcome
  jsonCalls : Nat
  parseCalls : Nat
  logs : List LogEntry
deriving DecidableEq

/-- Outcome of the single `fetch` call: the promise rejects with an
error message, or resolves with a status, a text body (`response.text()`)
and a JSON body (`response.json()`, which itself may reject). -/
inductive TransportOutcome where
  | reject : String → TransportOutcome
  | resolve : Nat → String → Except String JVal → TransportOutcome

/-- `response.ok`: status in the 2xx range. -/
def respOk (status : Nat) : Bool :=
  decide (200 ≤ status) && decide (status < 300)

/-- The thrown message of popup.js line 85. -/
def apiFailMessage (status : Nat) (body : String) : String :=
  "API request failed with status " ++ toString status ++ ". Details: " ++ body

/-- The inner parse-and-validate stage (popup.js lines 101-117):
`JSON.parse` inside its own `try`, then the `similarWebsites` shape
check and the element filter.  `JSON.parse` is a parameter (host
builtin); `none` models a parse exception, caught at line 114. -/
def parseStage (jsonParse : JVal → Option JVal) (tv : JVal) : TryRun :=
  match jsonParse tv with
  | none => ⟨.ok [], 1, 1, [LogEntry.parseJsonFailed]⟩
  | some pj =>
    if truthy pj then
      match getProp (some pj) "similarWebsites" with
      | .error m => ⟨.thrown m, 1, 1, []⟩
      | .ok sw =>
        if truthyOpt sw then
          match sw with
          | some (.jarr xs) => ⟨.ok (filterSimilarWebsites xs), 1, 1, []⟩
          | _ => ⟨.ok [], 1, 1, [LogEntry.unexpectedStructure]⟩
        else ⟨.ok [], 1, 1, [LogEntry.unexpectedStructure]⟩
    else ⟨.ok [], 1, 1, [LogEntry.unexpectedStructure]⟩

/-- The `try` block of `fetchSimilarSites` (popup.js lines 73-121). -/
def tryBlock (jsonParse : JVal → Option JVal) (t : TransportOutcome) : TryRun :=
  match t with
  | .reject m => ⟨.thrown m, 0, 0, []⟩
  | .resolve status textBody jsonBody =>
    if respOk status then
      match jsonBody with
      | .error m => ⟨.thrown m, 1, 0, []⟩
      | .ok result =>
        match extractText result with
        | .error m => ⟨.thrown m, 1, 0, []⟩
        | .ok none => ⟨.ok [], 1, 0, [LogEntry.noValidCandidates]⟩
        | .ok (some tv) => parseStage jsonParse tv
    else
      ⟨.thrown (apiFailMessage status textBody), 0, 0, [LogEntry.apiRequestFailed status textBody]⟩

/-- Observable result of one call to `fetchSimilarSites`: the returned
site list, the number of HTTP transport calls issued, the
`response.json()` and `JSON.parse` call counts, the console logs, and
the last write to the message element (`none` = untouched). -/
structure FetchResult where
  sites : List String
  networkCalls : Nat
  jsonCalls : Nat
  parseCalls : Nat
  logs : List LogEntry
  message : Option String
deriving DecidableEq

/-- JavaScript falsiness of the `siteUrl` argument (`null`/`undefined`
modelled as `none`, empty string falsy). -/
def jsFalsyStr : Option String → Bool
  | none => true
  | some s => s.isEmpty

/-- `fetchSimilarSites` (popup.js lines 42-127): the guard at line 43,
then the `try` block, with the `catch` at line 122 converting every
thrown exception into a console log, a message write and an empty
return.  The `Except.error` case would be an exception escaping to the
caller; the function never produces it. -/
def fetchSimilarSites (jsonParse : JVal → Option JVal) (siteUrl : Option String)
    (t : TransportOutcome) : Except String FetchResult :=
  if jsFalsyStr siteUrl then
    .ok ⟨[], 0, 0, 0, [], none⟩
  else
    let run := tryBlock jsonParse t
    match run.outcome with
    | .ok sites => .ok ⟨sites, 1, run.jsonCalls, run.parseCalls, run.logs, none⟩
    | .thrown m =>
      .ok ⟨[], 1, run.jsonCalls, run.parseCalls,
           run.logs ++ [LogEntry.fetchError m], some ("Error: " ++ m)⟩

/-- A tab descriptor as delivered to the `chrome.tabs.query` callback;
`url` is `none` when the field is `undefined`. -/
structure Tab where
  url : Option String
deriving DecidableEq

/-- The host environment seen by `getCurrentTabUrl`: the tab-query
capability is absent (`chrome.tabs.query` not available), or the query
runs and its callback receives a possibly-`undefined` tab list. -/
inductive TabsEnv where
  | unavailable : TabsEnv
  | query : Option (List Tab) → TabsEnv
deriving DecidableEq

/-- `getCurrentTabUrl` (popup.js lines 17-35): with the capability
available it resolves the first tab's URL when truthy and `null`
otherwise; without the capability it resolves the local-testing
placeholder `"https://example.com"` (line 32). -/
def getCurrentTabUrl : TabsEnv → Option String
  | .unavailable => some "https://example.com"
  | .query none => none
  | .query (some []) => none
  | .query (some (t :: _)) =>
    match t.url with
    | none => none
    | some s => if s.isEmpty then none else some s

/-- A rendered `<a>` entry of the similar-sites list. -/
structure SiteLink where
  href : String
  text : String
  target : String
  title : String
deriving DecidableEq

/-- The popup's DOM state: the four elements the script mutates. -/
structure PopupDom where
  currentSiteText : String
  currentSiteTitle : String
  listItems : List SiteLink
  messageText : String
  messageDisplay : String
  loaderDisplay : String
deriving DecidableEq

/-- The link element built for one site (popup.js lines 147-154):
label, tooltip and link target are the URL, `target='_blank'`. -/
def mkSiteLink (site : String) : SiteLink :=
  ⟨site, site, "_blank", site⟩

/-- `displaySimilarSites` (popup.js lines 133-159): clear the list, on
an empty input set the no-results message text and stop, otherwise hide
the message element and append one link per site in order. -/
def displaySimilarSites (sites : List String) (dom : PopupDom) : PopupDom :=
  let d := { dom with listItems := ([] : List SiteLink) }
  if sites.length == 0 then
    { d with messageText := "No similar sites found or API error." }
  else
    let d2 := { d with messageDisplay := "none" }
    { d2 with listItems := sites.map mkSiteLink }

/-- `main` (popup.js lines 164-190): show the loader, locate the tab
URL, and either run fetch-then-render or show the no-URL message.  The
`catch` at line 180 is included; the fetch model never throws, so it is
unreachable. -/
def mainFlow (jsonParse : JVal → Option JVal) (env : TabsEnv) (t : TransportOutcome)
    (dom : PopupDom) : PopupDom :=
  let d0 := { dom with loaderDisplay := "block", messageText := "Fetching current URL...",
                       listItems := ([] : List SiteLink) }
  match getCurrentTabUrl env with
  | none =>
    { d0 with loaderDisplay := "none", currentSiteText := "N/A",
              messageText := "Could not determine the current site URL. Ensure you are on a valid webpage." }
  | some u =>
    if u.isEmpty then
      { d0 with loaderDisplay := "none", currentSiteText := "N/A",
                messageText := "Could not determine the current site URL. Ensure you are on a valid webpage." }
    else
      let d1 := { d0 with currentSiteText := u, currentSiteTitle := u,
                          messageText := "Finding similar sites..." }
      match fetchSimilarSites jsonParse (some u) t with
      | .error _ =>
        { d1 with loaderDisplay := "none",
                  messageText := "Failed to load suggestions. See console for details." }
      | .ok fr =>
        let d2 :=
          match fr.message with
          | some m => { d1 with messageText := m }
          | none => d1
        displaySimilarSites fr.sites { d2 with loaderDisplay := "none" }

/-! ### Helper lemmas about the URL filter -/

/-- A list with prefix `c :: t` starts with `c`. -/
theorem isPrefixOf_head (c : Char) (t l : List Char)
    (h : List.isPrefixOf (c :: t) l = true) : ∃ r, l = c :: r := by
  cases l with
  | nil => simp [List.isPrefixOf] at h
  | cons b bs =>
    simp [List.isPrefixOf] at h
    exact ⟨bs, by rw [h.1]⟩

/-- Trimming a list that starts with a non-whitespace character yields a
non-empty list. -/
theorem jsTrim_head_not_ws (c : Char) (l : List Char) (hc : c.isWhitespace = false) :
    (jsTrim (c :: l)).isEmpty = false := by
  have hne : jsTrim (c :: l) ≠ [] := by
    simp only [jsTrim, List.dropWhile_cons, hc, Bool.false_eq_true, if_false]
    intro hnil
    have h1 : (c :: l).reverse.dropWhile Char.isWhitespace = [] :=
      List.reverse_eq_nil_iff.mp hnil
    have h2 := List.dropWhile_eq_nil_iff.mp h1 c (by simp)
    rw [hc] at h2
    exact Bool.false_ne_true h2
  cases hE : (jsTrim (c :: l)).isEmpty
  · rfl
  · exact absurd (List.isEmpty_iff.mp hE) hne

/-- The source's element filter (string, trim non-empty, `http(s)://`
prefix) agrees with the spec's wording (non-empty string with an
`http(s)://` prefix): a string starting with `http` cannot trim to
empty. -/
theorem validSiteEntry_eq_specSiteEntry (v : JVal) : validSiteEntry v = specSiteEntry v := by
  cases v with
  | jstr s =>
    simp only [validSiteEntry, specSiteEntry]
    cases hp : ("http://".data.isPrefixOf s.data || "https://".data.isPrefixOf s.data)
    · simp [hp]
    · have hhead : ∃ r, s.data = 'h' :: r := by
        rcases Bool.or_eq_true_iff.mp hp with h | h
        · have e : "http://".data = 'h' :: "ttp://".data := rfl
          rw [e] at h
          exact isPrefixOf_head _ _ _ h
        · have e : "https://".data = 'h' :: "ttps://".data := rfl
          rw [e] at h
          exact isPrefixOf_head _ _ _ h
      obtain ⟨r, hr⟩ := hhead
      rw [hr] at hp ⊢
      have h1 : (jsTrim ('h' :: r)).isEmpty = false := jsTrim_head_not_ws _ _ (by decide)
      simp [hp, h1]
  | jnull => rfl
  | jbool b => rfl
  | jnum n => rfl
  | jarr xs => rfl
  | jobj fs => rfl

/-- The source's filtering of a decoded array equals the spec-worded
filtering. -/
theorem filterSimilarWebsites_eq_spec (xs : List JVal) :
    filterSimilarWebsites xs = specFilterSites xs := by
  unfold filterSimilarWebsites specFilterSites
  rw [show validSiteEntry = specSiteEntry from funext validSiteEntry_eq_specSiteEntry]

/-- Every branch of the parse stage records exactly one `JSON.parse`
call. -/
theorem parseStage_parseCalls (jp : JVal → Option JVal) (tv : JVal) :
    (parseStage jp tv).parseCalls = 1 := by
  unfold parseStage
  split
  · rfl
  · split
    · split
      · rfl
      · split
        · split <;> rfl
        · rfl
    · rfl

/-! ### Concrete inputs shared by witnesses and counterexamples -/

/-- A `JSON.parse` model that fails on every input. -/
def jpNone : JVal → Option JVal := fun _ => none

/-- A canonical well-formed envelope whose single candidate carries the
given inner text. -/
def sampleEnvelope (txt : String) : JVal :=
  .jobj [("candidates",
    .jarr [.jobj [("content", .jobj [("parts", .jarr [.jobj [("text", .jstr txt)]])])]])]

/-- A candidate whose content holds one part with non-empty text. -/
def goodCandidate : JVal :=
  .jobj [("content", .jobj [("parts", .jarr [.jobj [("text", .jstr "sites json")]])])]

/-- An envelope whose first candidate is an empty object and whose
second candidate is well-formed. -/
def cexEnvelope : JVal := .jobj [("candidates", .jarr [.jobj [], goodCandidate])]

/-- A `JSON.parse` model returning one valid similar website. -/
def jpGood : JVal → Option JVal := fun _ =>
  some (.jobj [("similarWebsites", .jarr [.jstr "https://ok.example"])])

/-- A decoded `similarWebsites` array with six valid entries interleaved
with invalid ones. -/
def sixArr : List JVal :=
  [.jstr "https://a.example", .jstr "ftp://x.example", .jstr "https://b.example",
   .jstr "http://c.example", .jstr "", .jstr "https://d.example", .jnum 7,
   .jstr "https://e.example", .jstr "https://f.example"]

/-- A `JSON.parse` model returning `sixArr` under the agreed key. -/
def jpSix : JVal → Option JVal := fun _ => some (.jobj [("similarWebsites", .jarr sixArr)])

/-- A `JSON.parse` model returning an empty `similarWebsites` array. -/
def jpEmpty : JVal → Option JVal := fun _ => some (.jobj [("similarWebsites", .jarr [])])

/-- A fresh popup DOM state. -/
def domInit : PopupDom := ⟨"", "", [], "", "", ""⟩

/-- A tab environment whose query finds one tab with a URL. -/
def envCurrent : TabsEnv := .query (some [⟨some "https://current.example"⟩])

/-- A 200 response whose envelope text decodes (under `jpEmpty`) to an
empty similar-websites array: a genuinely empty result. -/
def goodEmptyTransport : TransportOutcome :=
  .resolve 200 "" (.ok (sampleEnvelope "empty payload"))

/-! ### Claims -/

/-- C1: for every call of `fetchSimilarSites` with an absent
(`null`/`undefined`) or empty input URL, the function returns an empty
sequence immediately and issues zero calls to the HTTP transport. -/
theorem fetch_empty_url_no_network (jp : JVal → Option JVal) (t : TransportOutcome)
    (u : Option String) (h : u = none ∨ u = some "") :
    fetchSimilarSites jp u t = Except.ok ⟨[], 0, 0, 0, [], none⟩ := by
  rcases h with h | h <;> subst h <;> rfl

/-- Witness for C1 at the absent URL with a rejecting transport. -/
theorem fetch_empty_url_no_network_witness :
    ((none : Option String) = none ∨ (none : Option String) = some "") ∧
      fetchSimilarSites jpNone none (TransportOutcome.reject "net down") =
        Except.ok ⟨[], 0, 0, 0, [], none⟩ :=
  ⟨Or.inl rfl,
   fetch_empty_url_no_network jpNone (TransportOutcome.reject "net down") none (Or.inl rfl)⟩

/-- C2 counterexample: the claim says "no capability" and "no tabs
found" both yield the same absent signal, but `getCurrentTabUrl`
resolves the local-testing placeholder `"https://example.com"` when the
tab-query capability is unavailable, which differs from the `none` of
an empty query result. -/
theorem tab_url_capability_cex :
    getCurrentTabUrl TabsEnv.unavailable = some "https://example.com" ∧
      getCurrentTabUrl (TabsEnv.query (some [])) = none ∧
      getCurrentTabUrl TabsEnv.unavailable ≠ getCurrentTabUrl (TabsEnv.query (some [])) :=
  ⟨rfl, rfl, by decide⟩

/-- C2 (amended): when the tab-query capability is unavailable,
`getCurrentTabUrl` resolves the placeholder `"https://example.com"`
rather than the absent signal; absent is produced exactly by the
query-ran-but-no-usable-tab cases, so a caller can distinguish the two
situations. -/
theorem tab_url_capability_amended :
    getCurrentTabUrl TabsEnv.unavailable = some "https://example.com" ∧
      getCurrentTabUrl (TabsEnv.query none) = none ∧
      getCurrentTabUrl (TabsEnv.query (some [])) = none ∧
      (∀ rest : List Tab, getCurrentTabUrl (TabsEnv.query (some (⟨none⟩ :: rest))) = none) ∧
      (∀ rest : List Tab, getCurrentTabUrl (TabsEnv.query (some (⟨some ""⟩ :: rest))) = none) ∧
      (∀ env : TabsEnv, getCurrentTabUrl env = none → env ≠ TabsEnv.unavailable) := by
  refine ⟨rfl, rfl, rfl, fun rest => rfl, fun rest => rfl, ?_⟩
  intro env h henv
  subst henv
  simp [getCurrentTabUrl] at h

/-- Witness for the amended C2 at concrete environments. -/
theorem tab_url_capability_amended_witness :
    getCurrentTabUrl (TabsEnv.query (some [⟨none⟩])) = none ∧
      TabsEnv.query (some []) ≠ TabsEnv.unavailable :=
  ⟨tab_url_capability_amended.2.2.2.1 [],
   tab_url_capability_amended.2.2.2.2.2 (TabsEnv.query (some [])) rfl⟩

/-- C3: when the envelope guard passes but the extracted inner text is
not valid JSON (`JSON.parse` throws), `fetchSimilarSites` returns an
empty sequence with no exception escaping to its caller; the failure is
caught by the inner handler (one log entry, no message write). -/
theorem fetch_bad_inner_json_empty (jp : JVal → Option JVal) (u : Option String)
    (status : Nat) (tb : String) (body tv : JVal)
    (hu : jsFalsyStr u = false) (hok : respOk status = true)
    (hex : extractText body = Except.ok (some tv)) (hp : jp tv = none) :
    fetchSimilarSites jp u (.resolve status tb (.ok body)) =
      Except.ok ⟨[], 1, 1, 1, [LogEntry.parseJsonFailed], none⟩ := by
  simp [fetchSimilarSites, tryBlock, parseStage, hu, hok, hex, hp]

/-- Witness for C3 at a concrete envelope whose text fails to parse. -/
theorem fetch_bad_inner_json_empty_witness :
    fetchSimilarSites jpNone (some "https://u.example")
        (TransportOutcome.resolve 200 "" (Except.ok (sampleEnvelope "not json"))) =
      Except.ok ⟨[], 1, 1, 1, [LogEntry.parseJsonFailed], none⟩ :=
  fetch_bad_inner_json_empty jpNone (some "https://u.example") 200 ""
    (sampleEnvelope "not json") (.jstr "not json") rfl rfl rfl rfl

/-- C4: when the inner JSON decodes to an array under the agreed
`similarWebsites` key, the returned sequence is exactly the ordered
subsequence of its elements that are non-empty strings beginning with
`http://` or `https://` (the source's trim-based filter coincides with
that spec wording); all other elements are dropped, order is preserved,
and no deduplication or client-side truncation is applied. -/
theorem fetch_filters_valid_urls (jp : JVal → Option JVal) (u : Option String)
    (status : Nat) (tb : String) (body tv : JVal) (pf : List (String × JVal)) (xs : List JVal)
    (hu : jsFalsyStr u = false) (hok : respOk status = true)
    (hex : extractText body = Except.ok (some tv))
    (hp : jp tv = some (.jobj pf))
    (hsw : lookupField pf "similarWebsites" = some (.jarr xs)) :
    fetchSimilarSites jp u (.resolve status tb (.ok body)) =
      Except.ok ⟨filterSimilarWebsites xs, 1, 1, 1, [], none⟩ ∧
      filterSimilarWebsites xs = specFilterSites xs := by
  constructor
  · simp [fetchSimilarSites, tryBlock, parseStage, hu, hok, hex, hp, getProp, hsw,
          truthy, truthyOpt]
  · exact filterSimilarWebsites_eq_spec xs

/-- Witness for C4: six valid entries interleaved with invalid ones are
all returned, in order, with the invalid ones dropped. -/
theorem fetch_filters_valid_urls_witness :
    (fetchSimilarSites jpSix (some "https://u.example")
        (TransportOutcome.resolve 200 "" (Except.ok (sampleEnvelope "payload"))) =
      Except.ok ⟨filterSimilarWebsites sixArr, 1, 1, 1, [], none⟩ ∧
      filterSimilarWebsites sixArr = specFilterSites sixArr) ∧
    filterSimilarWebsites sixArr =
      ["https://a.example", "https://b.example", "http://c.example",
       "https://d.example", "https://e.example", "https://f.example"] :=
  ⟨fetch_filters_valid_urls jpSix (some "https://u.example") 200 ""
      (sampleEnvelope "payload") (.jstr "payload") [("similarWebsites", .jarr sixArr)] sixArr
      rfl rfl rfl rfl rfl, rfl⟩

/-- C5: for every non-success HTTP status and any body,
`fetchSimilarSites` logs the status with the diagnostic body, sets the
user-facing error message, returns an empty sequence, and performs no
envelope (`response.json()`) or inner-JSON parsing of that response. -/
theorem fetch_http_failure_no_parse (jp : JVal → Option JVal) (u : Option String)
    (status : Nat) (tb : String) (jb : Except String JVal)
    (hu : jsFalsyStr u = false) (hbad : respOk status = false) :
    fetchSimilarSites jp u (.resolve status tb jb) =
      Except.ok ⟨[], 1, 0, 0,
        [LogEntry.apiRequestFailed status tb,
         LogEntry.fetchError (apiFailMessage status tb)],
        some ("Error: " ++ apiFailMessage status tb)⟩ := by
  simp [fetchSimilarSites, tryBlock, hu, hbad]

/-- Witness for C5 at HTTP status 500. -/
theorem fetch_http_failure_no_parse_witness :
    fetchSimilarSites jpNone (some "https://u.example")
        (TransportOutcome.resolve 500 "Internal Server Error" (Except.ok JVal.jnull)) =
      Except.ok ⟨[], 1, 0, 0,
        [LogEntry.apiRequestFailed 500 "Internal Server Error",
         LogEntry.fetchError "API request failed with status 500. Details: Internal Server Error"],
        some "Error: API request failed with status 500. Details: Internal Server Error"⟩ :=
  fetch_http_failure_no_parse jpNone (some "https://u.example") 500 "Internal Server Error"
    (Except.ok JVal.jnull) rfl rfl

/-- C6: `fetchSimilarSites` is total at its boundary: for every input
URL and every transport outcome (rejection, any status, any body,
any `response.json()` or `JSON.parse` behaviour) it produces an
`Except.ok` result carrying a list of strings; no exception escapes. -/
theorem fetch_never_raises (jp : JVal → Option JVal) (u : Option String) (t : TransportOutcome) :
    ∃ r : FetchResult, fetchSimilarSites jp u t = Except.ok r := by
  unfold fetchSimilarSites
  by_cases h : jsFalsyStr u = true
  · rw [if_pos h]
    exact ⟨_, rfl⟩
  · rw [if_neg h]
    cases ho : (tryBlock jp t).outcome with
    | ok sites =>
      simp only [ho]
      exact ⟨_, rfl⟩
    | thrown m =>
      simp only [ho]
      exact ⟨_, rfl⟩

/-- C7 counterexample: an envelope containing a candidate whose content
holds a part with non-empty text — but in second position — does not
make the client parse that text: the guard inspects only the first
candidate, so the call returns an empty sequence with zero `JSON.parse`
calls, even though parsing would have produced a result under the
supplied `JSON.parse` model. -/
theorem envelope_second_candidate_ignored :
    extractText (JVal.jobj [("candidates", JVal.jarr [goodCandidate])]) =
        Except.ok (some (JVal.jstr "sites json")) ∧
      fetchSimilarSites jpGood (some "https://u.example")
          (TransportOutcome.resolve 200 "" (Except.ok cexEnvelope)) =
        Except.ok ⟨[], 1, 1, 0, [LogEntry.noValidCandidates], none⟩ :=
  ⟨rfl, rfl⟩

/-- C7 (amended): for every success-status response body, if the FIRST
candidate's content's FIRST part has a non-empty text field, the client
extracts exactly that text and proceeds to parse it (one `JSON.parse`
call); when the guard fails, the result is an empty sequence, logged,
with no exception raised to the caller and no parse attempted. -/
theorem envelope_first_candidate_only
    (jp : JVal → Option JVal) (u : Option String) (status : Nat) (tb : String)
    (hu : jsFalsyStr u = false) (hok : respOk status = true) :
    (∀ (bf c0f ctf p0f : List (String × JVal)) (crest prest : List JVal) (t : String)
        (body : JVal),
        body = JVal.jobj bf →
        lookupField bf "candidates" = some (.jarr (.jobj c0f :: crest)) →
        lookupField c0f "content" = some (.jobj ctf) →
        lookupField ctf "parts" = some (.jarr (.jobj p0f :: prest)) →
        lookupField p0f "text" = some (.jstr t) →
        t ≠ "" →
        extractText body = Except.ok (some (.jstr t)) ∧
          tryBlock jp (.resolve status tb (.ok body)) = parseStage jp (.jstr t) ∧
          (parseStage jp (.jstr t)).parseCalls = 1) ∧
    (∀ body : JVal, extractText body = Except.ok none →
        fetchSimilarSites jp u (.resolve status tb (.ok body)) =
          Except.ok ⟨[], 1, 1, 0, [LogEntry.noValidCandidates], none⟩) := by
  constructor
  · intro bf c0f ctf p0f crest prest t body hb hc hct hpt htx hne
    subst hb
    have hte : t.isEmpty = false := by
      cases h : t.isEmpty
      · rfl
      · exact absurd ((String.isEmpty_iff t).mp h) hne
    have hex : extractText (JVal.jobj bf) = Except.ok (some (.jstr t)) := by
      simp [extractText, getProp, getIdx, hc, hct, hpt, htx, truthyOpt, truthy,
            jsGtZero, jsToNumber, hte, List.get?]
    refine ⟨hex, ?_, parseStage_parseCalls jp (.jstr t)⟩
    simp [tryBlock, hok, hex]
  · intro body hex
    simp [fetchSimilarSites, tryBlock, hu, hok, hex]

/-- Witness for the amended C7: the canonical single-candidate envelope
reaches the parse stage; the empty-candidates envelope yields the
logged empty result. -/
theorem envelope_first_candidate_only_witness :
    (extractText (sampleEnvelope "sites json") = Except.ok (some (JVal.jstr "sites json")) ∧
      tryBlock jpNone (TransportOutcome.resolve 200 "" (Except.ok (sampleEnvelope "sites json"))) =
        parseStage jpNone (JVal.jstr "sites json") ∧
      (parseStage jpNone (JVal.jstr "sites json")).parseCalls = 1) ∧
    fetchSimilarSites jpNone (some "https://u.example")
        (TransportOutcome.resolve 200 "" (Except.ok (JVal.jobj [("candidates", JVal.jarr [])]))) =
      Except.ok ⟨[], 1, 1, 0, [LogEntry.noValidCandidates], none⟩ :=
  ⟨(envelope_first_candidate_only jpNone (some "https://u.example") 200 "" rfl rfl).1
      [("candidates", .jarr [.jobj [("content", .jobj [("parts", .jarr [.jobj [("text", .jstr "sites json")]])])]])]
      [("content", .jobj [("parts", .jarr [.jobj [("text", .jstr "sites json")]])])]
      [("parts", .jarr [.jobj [("text", .jstr "sites json")]])]
      [("text", .jstr "sites json")]
      [] [] "sites json" (sampleEnvelope "sites json")
      rfl rfl rfl rfl rfl (by decide),
    (envelope_first_candidate_only jpNone (some "https://u.example") 200 "" rfl rfl).2
      (JVal.jobj [("candidates", JVal.jarr [])]) rfl⟩

/-- C8: `displaySimilarSites` rebuilds the list from scratch (one entry
per input URL, in order, label, tooltip and link target equal to the
URL, opened via `target='_blank'`), shows the fixed no-results message
text and an empty list on empty input, and hides the message element on
non-empty input. -/
theorem render_contract (sites : List String) (dom : PopupDom) :
    (displaySimilarSites sites dom).listItems = sites.map mkSiteLink ∧
      (sites = [] →
        (displaySimilarSites sites dom).messageText = "No similar sites found or API error." ∧
          (displaySimilarSites sites dom).listItems = []) ∧
      (sites ≠ [] → (displaySimilarSites sites dom).messageDisplay = "none") ∧
      (∀ l ∈ (displaySimilarSites sites dom).listItems,
        l.href ∈ sites ∧ l.text = l.href ∧ l.title = l.href ∧ l.target = "_blank") := by
  by_cases h : sites = []
  · subst h
    refine ⟨rfl, fun _ => ⟨rfl, rfl⟩, fun hne => absurd rfl hne, ?_⟩
    intro l hl
    simp [displaySimilarSites] at hl
  · have hlen : (sites.length == 0) = false := by
      cases sites with
      | nil => exact absurd rfl h
      | cons s ss => rfl
    refine ⟨?_, fun he => absurd he h, fun _ => ?_, ?_⟩
    · simp [displaySimilarSites, hlen]
    · simp [displaySimilarSites, hlen]
    · intro l hl
      simp [displaySimilarSites, hlen, List.mem_map] at hl
      obtain ⟨s, hs, rfl⟩ := hl
      exact ⟨hs, rfl, rfl, rfl⟩

/-- Witness for C8 at a one-element and an empty input. -/
theorem render_contract_witness :
    (displaySimilarSites ["https://x.com"] domInit).listItems = [mkSiteLink "https://x.com"] ∧
      (displaySimilarSites ["https://x.com"] domInit).messageDisplay = "none" ∧
      (displaySimilarSites [] domInit).messageText = "No similar sites found or API error." :=
  ⟨(render_contract ["https://x.com"] domInit).1,
   (render_contract ["https://x.com"] domInit).2.2.1 (by decide),
   ((render_contract [] domInit).2.1 rfl).1⟩

/-- C9 counterexample: a transport failure does NOT leave a distinct
error message visible: the full flow renders the empty result, which
overwrites the transient `Error: ...` text with the same
"No similar sites found or API error." shown for a genuinely empty
result — the final DOM states of the two runs are identical. -/
theorem flow_error_message_cex :
    (mainFlow jpEmpty envCurrent (TransportOutcome.reject "Failed to fetch") domInit).messageText =
        "No similar sites found or API error." ∧
      (mainFlow jpEmpty envCurrent goodEmptyTransport domInit).messageText =
        "No similar sites found or API error." ∧
      mainFlow jpEmpty envCurrent (TransportOutcome.reject "Failed to fetch") domInit =
        mainFlow jpEmpty envCurrent goodEmptyTransport domInit :=
  ⟨rfl, rfl, rfl⟩

/-- C9 (amended): over the full flow, no failure kind leaves a distinct
error message: whenever the fetch stage returns an empty sequence — a
transport failure included — the render step sets the message text to
the same "No similar sites found or API error." presentation. -/
theorem flow_failures_collapse (jp : JVal → Option JVal) (env : TabsEnv)
    (t : TransportOutcome) (dom : PopupDom) (u : String) (fr : FetchResult)
    (hu : getCurrentTabUrl env = some u) (hne : u.isEmpty = false)
    (hf : fetchSimilarSites jp (some u) t = Except.ok fr) (hs : fr.sites = []) :
    (mainFlow jp env t dom).messageText = "No similar sites found or API error." := by
  cases hm : fr.message with
  | none => simp [mainFlow, hu, hne, hf, hs, hm, displaySimilarSites]
  | some m => simp [mainFlow, hu, hne, hf, hs, hm, displaySimilarSites]

/-- Witness for the amended C9 at a concrete transport rejection. -/
theorem flow_failures_collapse_witness :
    (mainFlow jpEmpty envCurrent (TransportOutcome.reject "network unreachable") domInit).messageText =
      "No similar sites found or API error." :=
  flow_failures_collapse jpEmpty envCurrent (TransportOutcome.reject "network unreachable") domInit
    "https://current.example"
    ⟨[], 1, 0, 0, [LogEntry.fetchError "network unreachable"], some "Error: network unreachable"⟩
    rfl rfl rfl rfl

/-- C10: `displaySimilarSites` sets the message element's display style
to `none` on a non-empty input but never restores it on an empty
input — there it only writes the no-results text, leaving the display
style untouched; in particular an empty render after a non-empty render
leaves the element hidden, and the current-site and loader fields are
never touched by this function. -/
theorem render_message_frame (sites : List String) (dom : PopupDom) :
    (sites ≠ [] → (displaySimilarSites sites dom).messageDisplay = "none") ∧
      (sites = [] →
        (displaySimilarSites sites dom).messageDisplay = dom.messageDisplay ∧
          (displaySimilarSites sites dom).messageText = "No similar sites found or API error.") ∧
      (displaySimilarSites sites dom).currentSiteText = dom.currentSiteText ∧
      (displaySimilarSites sites dom).currentSiteTitle = dom.currentSiteTitle ∧
      (displaySimilarSites sites dom).loaderDisplay = dom.loaderDisplay ∧
      (∀ s ss, (displaySimilarSites [] (displaySimilarSites (s :: ss) dom)).messageDisplay = "none") := by
  by_cases h : sites = []
  · subst h
    exact ⟨fun hne => absurd rfl hne, fun _ => ⟨rfl, rfl⟩, rfl, rfl, rfl, fun s ss => rfl⟩
  · have hlen : (sites.length == 0) = false := by
      cases sites with
      | nil => exact absurd rfl h
      | cons s ss => rfl
    refine ⟨fun _ => ?_, fun he => absurd he h, ?_, ?_, ?_, fun s ss => rfl⟩
    · simp [displaySimilarSites, hlen]
    · simp [displaySimilarSites, hlen]
    · simp [displaySimilarSites, hlen]
    · simp [displaySimilarSites, hlen]

/-- Witness for C10: after a non-empty render hid the message, an empty
render writes the no-results text while the element stays hidden. -/
theorem render_message_frame_witness :
    (displaySimilarSites [] (displaySimilarSites ["https://x.com"] domInit)).messageDisplay = "none" ∧
      ((displaySimilarSites [] domInit).messageDisplay = domInit.messageDisplay ∧
        (displaySimilarSites [] domInit).messageText = "No similar sites found or API error.") :=
  ⟨(render_message_frame [] domInit).2.2.2.2.2 "https://x.com" [],
   (render_message_frame [] domInit).2.1 rfl⟩
